import Mathlib

/-!
Shallow embedding of `wgpu-hal/src/dx12/mod.rs` (DirectX12 backend internals)
and proofs about its error translation, swapchain lifecycle, pass-state
tracking and buffer-binding size resolution.

Machine integers are modelled as `Int` (for `i32` HRESULT status codes, with
explicit range hypotheses and `% 2^32` where the code casts to `u32`) and as
`Nat` (for `u32`/`u64`/`usize` quantities).  Fallible code returns `Except`
or `Option`.  Native (COM/Win32) calls performed by the code are modelled by
an oracle supplying their outcomes, and the externally observable actions of
a stateful operation are recorded as an explicit event trace.
-/

/-! ## Windows / DXGI constants

Numeric values of the `winapi` constants used by the source (these are the
documented Windows API values; the source imports them from the external
`winapi` crate). `E_*` values are the twos-complement `i32` readings of the
usual `0x8...` HRESULTs. -/

def E_UNEXPECTED : Int := -2147418113

def E_NOTIMPL : Int := -2147467263

def E_OUTOFMEMORY : Int := -2147024882

def E_INVALIDARG : Int := -2147024809

def WAIT_OBJECT_0 : Nat := 0

def WAIT_ABANDONED : Nat := 128

def WAIT_TIMEOUT : Nat := 258

def WAIT_FAILED : Nat := 4294967295

def INFINITE : Nat := 4294967295

def DXGI_SWAP_CHAIN_FLAG_FRAME_LATENCY_WAITABLE_OBJECT : Nat := 64

def DXGI_SWAP_CHAIN_FLAG_ALLOW_TEARING : Nat := 2048

/-- Source line 97: `const ZERO_BUFFER_SIZE: wgt::BufferAddress = 256 << 10;`. -/
def ZERO_BUFFER_SIZE : Nat := 256 * 1024

/-! ## Hexadecimal rendering

Embedding of Rust `format!("0x{:X}", self as u32)` from
`HResult::into_result` (line 72): uppercase hex digits, no leading zeros,
the lone digit `0` for zero.  Fuel-based recursion (32 digits is more than
any `u32` needs) keeps the function reducible by the kernel. -/

def hexDigit (n : Nat) : Char :=
  if n < 10 then Char.ofNat (48 + n) else Char.ofNat (55 + n)

def hexCharsAux : Nat → Nat → List Char
  | 0, _ => []
  | fuel + 1, n =>
    if n = 0 then [] else hexCharsAux fuel (n / 16) ++ [hexDigit (n % 16)]

/-- Rust `format!("0x{:X}", code as u32)` for an `i32` value `code`:
the cast to `u32` is reduction modulo `2^32`. -/
def formatHexU32 (code : Int) : String :=
  let u : Nat := (code % (2 ^ 32 : Int)).toNat
  "0x" ++ String.mk (if u = 0 then ['0'] else hexCharsAux 32 u)

/-! ## Error translation (source lines 58-95) -/

/-- Embedding of `impl HResult<()> for i32 { fn into_result(self) }`
(lines 63-75).  The `Cow` string error payload is a `String`. -/
def into_result (code : Int) : Except String Unit :=
  if 0 ≤ code then Except.ok ()
  else if code = E_UNEXPECTED then Except.error "unexpected"
  else if code = E_NOTIMPL then Except.error "not implemented"
  else if code = E_OUTOFMEMORY then Except.error "out of memory"
  else if code = E_INVALIDARG then Except.error "invalid argument"
  else Except.error (formatHexU32 code)

/-- Modelled from the spec: the crate-level `DeviceError` type is declared
outside `src/`; per §7 the contextual mapping targets
`DeviceError ∈ \x7bOutOfMemory, Lost\x7d`. -/
inductive DeviceError
  | outOfMemory
  | lost
deriving DecidableEq

/-- Embedding of `fn into_device_result(self, description)` (lines 76-85).
The `description` argument is only logged in the source, so it is dropped
here; the mapping inspects the raw code again for `E_OUTOFMEMORY`. -/
def into_device_result (code : Int) : Except DeviceError Unit :=
  match into_result code with
  | Except.ok () => Except.ok ()
  | Except.error _ =>
    Except.error (if code = E_OUTOFMEMORY then DeviceError.outOfMemory else DeviceError.lost)

/-- Modelled from the spec: the crate-level `SurfaceError` type is declared
outside `src/`; per §7 presentation-path failures use
`SurfaceError ∈ \x7bLost, Other(reason)\x7d`. -/
inductive SurfaceError
  | lost
  | other (reason : String)
deriving DecidableEq

/-! ## Swapchain data model (source lines 108-121) -/

/-- Embedding of `struct SwapChain` (lines 108-115).  Native COM pointers and
Win32 handles are modelled as opaque numeric identifiers. -/
structure SwapChain where
  raw : Nat
  resources : List Nat
  waitable : Nat
  acquired_count : Nat
deriving DecidableEq

/-- Embedding of `pub struct Surface` (lines 117-121). -/
structure Surface where
  factory : Nat
  wnd_handle : Nat
  swap_chain : Option SwapChain
deriving DecidableEq

/-- Embedding of `SwapChain::wait` (lines 440-450).  The result of the native
`WaitForSingleObject(self.waitable, timeout_ms)` call is supplied as the
`status` argument (a `DWORD`); the match arms of the source are reproduced in
order.  The `log::error!` on the default arm is a side effect only. -/
def SwapChain.wait (sc : SwapChain) (timeout_ms : Nat) (status : Nat) :
    Except SurfaceError Bool :=
  if status = WAIT_ABANDONED ∨ status = WAIT_FAILED then Except.error SurfaceError.lost
  else if status = WAIT_OBJECT_0 then Except.ok true
  else if status = WAIT_TIMEOUT then Except.ok false
  else Except.error SurfaceError.lost

/-! ## Surface configuration (source lines 453-573)

`Surface::configure` and `Surface::unconfigure` perform a sequence of native
calls.  Each externally observable native action is recorded as an `Event`;
the outcomes of the fallible or value-producing native calls are supplied by
a `NativeOracle`.  The functions return the emitted trace (in program
order), the new `Surface` state, and the result value. -/

/-- Observable native actions performed by `configure` / `unconfigure`. -/
inductive Event
  | waitIdle
  | releaseResource (id : Nat)
  | resizeBuffers (count width height flags : Nat)
  | createSwapChain (count width height flags : Nat)
  | castSwapChain
  | destroySwapChain (id : Nat)
  | makeWindowAssociation
  | setMaximumFrameLatency (n : Nat)
  | getFrameLatencyWaitableObject
  | getBuffer (i : Nat)
  | waitOnWaitable (handle : Nat) (timeout_ms : Nat)
deriving DecidableEq

/-- Embedding of `wgt::PresentMode` as used by the source (only the
`Immediate` arm is distinguished, line 461). -/
inductive PresentMode
  | immediate
  | mailbox
  | fifo
deriving DecidableEq

/-- Embedding of the `crate::SurfaceConfiguration` fields the source reads. -/
structure SurfaceConfiguration where
  extent_width : Nat
  extent_height : Nat
  swap_chain_size : Nat
  format : Nat
  present_mode : PresentMode
  composite_alpha_mode : Nat

/-- Outcomes of the native calls made during `configure`: the HRESULTs of
`ResizeBuffers`, `CreateSwapChainForHwnd` and the `IDXGISwapChain3` cast,
the identifiers produced by creation/cast, the frame-latency waitable
handle, and the resource written by `GetBuffer` for each index. -/
structure NativeOracle where
  resizeHr : Int
  createHr : Int
  castHr : Int
  createdSwapChain : Nat
  castSwapChain3 : Nat
  waitable : Nat
  bufferFor : Nat → Nat

/-- Flags computation at lines 459-465: the frame-latency-waitable flag is
always set; tearing is additionally allowed under `Immediate` present mode. -/
def swapChainFlags (mode : PresentMode) : Nat :=
  match mode with
  | PresentMode.immediate =>
    DXGI_SWAP_CHAIN_FLAG_FRAME_LATENCY_WAITABLE_OBJECT |||
      DXGI_SWAP_CHAIN_FLAG_ALLOW_TEARING
  | _ => DXGI_SWAP_CHAIN_FLAG_FRAME_LATENCY_WAITABLE_OBJECT

/-- Embedding of `SwapChain::release_resources` (lines 433-438): destroys
every backbuffer resource and hands back the raw swapchain pointer. -/
def SwapChain.release_resources (sc : SwapChain) : List Event × Nat :=
  (sc.resources.map Event.releaseResource, sc.raw)

/-- Common tail of `configure` (lines 535-561): `MakeWindowAssociation`,
`SetMaximumFrameLatency`, `GetFrameLatencyWaitableObject`, one `GetBuffer`
per backbuffer index, then installation of the new `SwapChain` value with
`acquired_count = 0`. -/
def finishConfigure (s : Surface) (o : NativeOracle) (config : SurfaceConfiguration)
    (evs : List Event) (raw : Nat) :
    List Event × Surface × Except SurfaceError Unit :=
  (evs ++
      [Event.makeWindowAssociation,
        Event.setMaximumFrameLatency config.swap_chain_size,
        Event.getFrameLatencyWaitableObject] ++
      (List.range config.swap_chain_size).map Event.getBuffer,
    { s with
      swap_chain := some
        { raw := raw
          resources := (List.range config.swap_chain_size).map o.bufferFor
          waitable := o.waitable
          acquired_count := 0 } },
    Except.ok ())

/-- Embedding of `Surface::configure` (lines 454-562).  `self.swap_chain.take()`
leaves `swap_chain = none` on every early-error return.  In the resize branch
the source waits for device idle, releases the old backbuffer resources, and
calls `ResizeBuffers`; failure maps to `Other("window is in use")`.  In the
creation branch `CreateSwapChainForHwnd` failure maps to
`Other("swap chain creation")`, a failed cast to `IDXGISwapChain3` maps to
`Other("swap chain cast to 3")`, and a successful cast destroys the
intermediate `IDXGISwapChain1`. -/
def Surface.configure (s : Surface) (o : NativeOracle) (config : SurfaceConfiguration) :
    List Event × Surface × Except SurfaceError Unit :=
  let flags := swapChainFlags config.present_mode
  let s0 : Surface := { s with swap_chain := none }
  match s.swap_chain with
  | some sc =>
    let rel := sc.release_resources
    let evs := Event.waitIdle :: rel.1 ++
      [Event.resizeBuffers config.swap_chain_size config.extent_width
          config.extent_height flags]
    match into_result o.resizeHr with
    | Except.error _ => (evs, s0, Except.error (SurfaceError.other "window is in use"))
    | Except.ok _ => finishConfigure s0 o config evs rel.2
  | none =>
    let evs := [Event.createSwapChain config.swap_chain_size config.extent_width
        config.extent_height flags]
    match into_result o.createHr with
    | Except.error _ => (evs, s0, Except.error (SurfaceError.other "swap chain creation"))
    | Except.ok _ =>
      match into_result o.castHr with
      | Except.error _ =>
        (evs ++ [Event.castSwapChain], s0,
          Except.error (SurfaceError.other "swap chain cast to 3"))
      | Except.ok _ =>
        finishConfigure s0 o config
          (evs ++ [Event.castSwapChain, Event.destroySwapChain o.createdSwapChain])
          o.castSwapChain3

/-- Embedding of `Surface::unconfigure` (lines 564-573): when a swapchain is
present, wait on its frame-latency waitable with `INFINITE` timeout (result
discarded), wait for device idle (result discarded), destroy every
backbuffer resource, destroy the raw swapchain, and leave `swap_chain =
none`; otherwise do nothing. -/
def Surface.unconfigure (s : Surface) : List Event × Surface :=
  match s.swap_chain with
  | some sc =>
    (Event.waitOnWaitable sc.waitable INFINITE :: Event.waitIdle ::
        (sc.release_resources.1 ++ [Event.destroySwapChain sc.raw]),
      { s with swap_chain := none })
  | none => ([], s)

/-- Embedding of the `crate::AcquiredSurfaceTexture` payload (opaque here). -/
structure AcquiredSurfaceTexture where
  texture : Nat

/-- Embedding of `Surface::acquire_texture` (lines 575-580): the source body
is the stub `Ok(None)`, regardless of surface state or timeout. -/
def Surface.acquire_texture (s : Surface) (timeout_ms : Nat) :
    Except SurfaceError (Option AcquiredSurfaceTexture) :=
  Except.ok none

/-! ## Pass state (source lines 230-267) -/

/-- Modelled from the spec: `crate::MAX_COLOR_TARGETS` is a crate-level
constant declared outside `src/` (§9: "max color targets"); the claims
proved below do not depend on its numeric value. -/
def MAX_COLOR_TARGETS : Nat := 4

/-- Modelled from the spec: `crate::MAX_VERTEX_BUFFERS` is a crate-level
constant declared outside `src/` (§9: "max vertex buffers"). -/
def MAX_VERTEX_BUFFERS : Nat := 16

/-- Embedding of `d3d12::D3D12_VERTEX_BUFFER_VIEW` (location, size, stride);
`mem::zeroed()` is the all-zero value. -/
structure VertexBufferView where
  BufferLocation : Nat
  SizeInBytes : Nat
  StrideInBytes : Nat
deriving DecidableEq

def VertexBufferView.zeroed : VertexBufferView :=
  { BufferLocation := 0, SizeInBytes := 0, StrideInBytes := 0 }

/-- Embedding of `struct PassResolve` (lines 230-234). -/
structure PassResolve where
  src : Nat × Nat
  dst : Nat × Nat
  format : Nat
deriving DecidableEq

/-- Embedding of `enum PassKind` (lines 236-240). -/
inductive PassKind
  | render
  | compute
  | transfer
deriving DecidableEq

/-- Embedding of `struct PassState` (lines 242-248).  The
`ArrayVec<[PassResolve; MAX_COLOR_TARGETS]>` is a list whose length is
bounded by `MAX_COLOR_TARGETS`, and the fixed-size vertex-buffer array is a
list of length `MAX_VERTEX_BUFFERS`. -/
structure PassState where
  has_label : Bool
  resolves : List PassResolve
  vertex_buffers : List VertexBufferView
  dirty_vertex_buffers : Nat
  kind : PassKind

/-- Embedding of `PassState::new` (lines 251-259). -/
def PassState.new : PassState :=
  { has_label := false
    resolves := []
    vertex_buffers := List.replicate MAX_VERTEX_BUFFERS VertexBufferView.zeroed
    dirty_vertex_buffers := 0
    kind := PassKind.transfer }

/-- Embedding of `PassState::clear` (lines 261-266): resets every field the
source touches; `vertex_buffers` is left as is. -/
def PassState.clear (p : PassState) : PassState :=
  { p with
    has_label := false
    resolves := []
    dirty_vertex_buffers := 0
    kind := PassKind.transfer }

/-! ## Buffer bindings (source lines 289-309) -/

/-- Embedding of `pub struct Buffer` (lines 290-293); `size` is a `u64`
byte count (`wgt::BufferAddress`). -/
structure Buffer where
  resource : Nat
  size : Nat
deriving DecidableEq

/-- Embedding of the `crate::BufferBinding` fields the source reads:
`buffer`, `offset : wgt::BufferAddress`, and `size : Option<wgt::BufferSize>`
(a `NonZeroU64` when present). -/
structure BufferBinding where
  buffer : Buffer
  offset : Nat
  size : Option Nat
deriving DecidableEq

/-- Embedding of `BufferBinding::resolve_size` (lines 299-304).  The `None`
arm computes `self.buffer.size - self.offset` with an unguarded `u64`
subtraction, which is a panic (debug) or wrap (release) when
`offset > buffer.size`; that underflow case is modelled as `none`. -/
def resolve_size (b : BufferBinding) : Option Nat :=
  match b.size with
  | some size => some size
  | none =>
    if b.offset ≤ b.buffer.size then some (b.buffer.size - b.offset) else none

/-! ## Concrete fixtures used by witnesses -/

def oracleOk : NativeOracle :=
  { resizeHr := 0, createHr := 0, castHr := 0, createdSwapChain := 10,
    castSwapChain3 := 11, waitable := 12, bufferFor := fun i => 20 + i }

def oracleResizeFail : NativeOracle :=
  { oracleOk with resizeHr := -1 }

def cfgEx : SurfaceConfiguration :=
  { extent_width := 800, extent_height := 600, swap_chain_size := 2, format := 0,
    present_mode := PresentMode.fifo, composite_alpha_mode := 0 }

def scEx : SwapChain :=
  { raw := 7, resources := [30, 31], waitable := 9, acquired_count := 0 }

def surfWith : Surface :=
  { factory := 1, wnd_handle := 2, swap_chain := some scEx }

def surfNone : Surface :=
  { factory := 1, wnd_handle := 2, swap_chain := none }

def bindingCx : BufferBinding :=
  { buffer := { resource := 0, size := 4 }, offset := 0, size := some 10 }

def bindingNone : BufferBinding :=
  { buffer := { resource := 0, size := 8 }, offset := 3, size := none }

/-! ## Helper lemmas -/

theorem into_result_ok_iff (code : Int) :
    into_result code = Except.ok () ↔ 0 ≤ code := by
  unfold into_result
  split_ifs with h h1 h2 h3 h4 <;> simp [h]

theorem into_result_neg_eq (code : Int) (h : code < 0) :
    into_result code =
      Except.error
        (if code = E_UNEXPECTED then "unexpected"
        else if code = E_NOTIMPL then "not implemented"
        else if code = E_OUTOFMEMORY then "out of memory"
        else if code = E_INVALIDARG then "invalid argument"
        else formatHexU32 code) := by
  unfold into_result
  rw [if_neg (by omega)]
  split_ifs <;> rfl

theorem into_result_error_of_neg (code : Int) (h : code < 0) :
    ∃ m, into_result code = Except.error m :=
  ⟨_, into_result_neg_eq code h⟩

/-! ## Claim theorems -/

/-- C1: for every `i32` status code, `into_result` returns `Ok` exactly when
the code is nonnegative; for a negative code the error description is
"unexpected" for `E_UNEXPECTED`, "not implemented" for `E_NOTIMPL`,
"out of memory" for `E_OUTOFMEMORY`, "invalid argument" for `E_INVALIDARG`,
and otherwise the uppercase-hex rendering `format!("0x\x7b:X\x7d", code as u32)`
of the code. -/
theorem into_result_classification (code : Int)
    (hlo : -(2 ^ 31) ≤ code) (hhi : code < 2 ^ 31) :
    (into_result code = Except.ok () ↔ 0 ≤ code) ∧
    (code < 0 →
      into_result code =
        Except.error
          (if code = E_UNEXPECTED then "unexpected"
          else if code = E_NOTIMPL then "not implemented"
          else if code = E_OUTOFMEMORY then "out of memory"
          else if code = E_INVALIDARG then "invalid argument"
          else formatHexU32 code)) :=
  ⟨into_result_ok_iff code, fun h => into_result_neg_eq code h⟩

theorem into_result_classification_witness :
    ((-(2 ^ 31) ≤ (-2147024882 : Int)) ∧ ((-2147024882 : Int) < 2 ^ 31) ∧
      ((-2147024882 : Int) < 0)) ∧
    into_result (-2147024882) = Except.error "out of memory" := by
  refine ⟨⟨by decide, by decide, by decide⟩, ?_⟩
  have h :=
    (into_result_classification (-2147024882) (by decide) (by decide)).2 (by decide)
  rw [h]
  rfl

/-- C2: for every `i32` status code, `into_device_result` returns `Ok`
exactly when the code is nonnegative, returns `DeviceError::OutOfMemory`
for `E_OUTOFMEMORY`, and returns `DeviceError::Lost` for every other
failing (negative) code, recognized or not. -/
theorem into_device_result_classification (code : Int)
    (hlo : -(2 ^ 31) ≤ code) (hhi : code < 2 ^ 31) :
    (into_device_result code = Except.ok () ↔ 0 ≤ code) ∧
    (into_device_result E_OUTOFMEMORY = Except.error DeviceError.outOfMemory) ∧
    (code < 0 → code ≠ E_OUTOFMEMORY →
      into_device_result code = Except.error DeviceError.lost) := by
  refine ⟨?_, rfl, ?_⟩
  · by_cases h : 0 ≤ code
    · have hok := (into_result_ok_iff code).2 h
      unfold into_device_result
      rw [hok]
      simp [h]
    · obtain ⟨m, hm⟩ := into_result_error_of_neg code (by omega)
      unfold into_device_result
      rw [hm]
      simp [h]
  · intro hneg hne
    obtain ⟨m, hm⟩ := into_result_error_of_neg code hneg
    unfold into_device_result
    rw [hm, if_neg hne]

theorem into_device_result_classification_witness :
    ((-(2 ^ 31) ≤ (-1 : Int)) ∧ ((-1 : Int) < 2 ^ 31) ∧ ((-1 : Int) < 0) ∧
      ((-1 : Int) ≠ E_OUTOFMEMORY)) ∧
    into_device_result (-1) = Except.error DeviceError.lost :=
  ⟨⟨by decide, by decide, by decide, by decide⟩,
    (into_device_result_classification (-1) (by decide) (by decide)).2.2
      (by decide) (by decide)⟩

/-- C3: `SwapChain::wait` returns `Ok(false)` ("timed out") on
`WAIT_TIMEOUT`, `Ok(true)` on `WAIT_OBJECT_0`, and
`Err(SurfaceError::Lost)` on `WAIT_ABANDONED`, `WAIT_FAILED` and every
other unexpected wait status; every error it ever returns is `Lost`. -/
theorem swapchain_wait_classification (sc : SwapChain) (t : Nat) (status : Nat) :
    (sc.wait t WAIT_TIMEOUT = Except.ok false) ∧
    (sc.wait t WAIT_OBJECT_0 = Except.ok true) ∧
    (sc.wait t WAIT_ABANDONED = Except.error SurfaceError.lost) ∧
    (sc.wait t WAIT_FAILED = Except.error SurfaceError.lost) ∧
    (status ≠ WAIT_OBJECT_0 → status ≠ WAIT_TIMEOUT →
      sc.wait t status = Except.error SurfaceError.lost) ∧
    (∀ e, sc.wait t status = Except.error e → e = SurfaceError.lost) := by
  refine ⟨rfl, rfl, rfl, rfl, ?_, ?_⟩
  · intro h0 ht
    unfold SwapChain.wait
    split_ifs with h1 <;> rfl
  · intro e h
    unfold SwapChain.wait at h
    split_ifs at h <;> simp_all

theorem swapchain_wait_classification_witness :
    ((5 : Nat) ≠ WAIT_OBJECT_0 ∧ (5 : Nat) ≠ WAIT_TIMEOUT) ∧
    SwapChain.wait scEx 16 5 = Except.error SurfaceError.lost :=
  ⟨⟨by decide, by decide⟩,
    (swapchain_wait_classification scEx 16 5).2.2.2.2.1 (by decide) (by decide)⟩

/-- C7: `PassState::clear` agrees with the initial state `PassState::new`
on every field the spec names as initial: `has_label = false`, empty
resolves (whose length stays within the `MAX_COLOR_TARGETS` capacity
bound), `dirty_vertex_buffers = 0`, and `kind = Transfer`. -/
theorem passState_clear_resets_to_initial (p : PassState) :
    (p.clear.has_label = PassState.new.has_label ∧
      p.clear.resolves = PassState.new.resolves ∧
      p.clear.dirty_vertex_buffers = PassState.new.dirty_vertex_buffers ∧
      p.clear.kind = PassState.new.kind) ∧
    PassState.new.has_label = false ∧
    PassState.new.resolves = ([] : List PassResolve) ∧
    PassState.new.dirty_vertex_buffers = 0 ∧
    PassState.new.kind = PassKind.transfer ∧
    p.clear.resolves.length ≤ MAX_COLOR_TARGETS := by
  simp [PassState.clear, PassState.new, MAX_COLOR_TARGETS]

/-- C10 counterexample: with `buffer.size = 4`, `offset = 0` and an explicit
`size = Some(10)`, the precondition `offset ≤ buffer.size` holds, yet
`resolve_size` returns 10, which exceeds `buffer.size`; so "under that
precondition the result never exceeds buffer.size" is false as stated. -/
theorem resolve_size_can_exceed_buffer_size :
    bindingCx.offset ≤ bindingCx.buffer.size ∧
    resolve_size bindingCx = some 10 ∧
    bindingCx.buffer.size < 10 := by decide

/-- C10 (amended): `resolve_size` returns the explicit size unchanged (and
unvalidated) when one is given; when no explicit size is given, the
unguarded `u64` subtraction makes the function total only under the
precondition `offset ≤ buffer.size`, and under that precondition the
default-branch result `buffer.size - offset` never exceeds `buffer.size`. -/
theorem resolve_size_amended (b : BufferBinding) :
    (∀ sz, b.size = some sz → resolve_size b = some sz) ∧
    (b.offset ≤ b.buffer.size → (resolve_size b).isSome = true) ∧
    (b.size = none → b.offset ≤ b.buffer.size →
      resolve_size b = some (b.buffer.size - b.offset) ∧
      b.buffer.size - b.offset ≤ b.buffer.size) ∧
    (b.size = none → b.buffer.size < b.offset → resolve_size b = none) := by
  refine ⟨?_, ?_, ?_, ?_⟩
  · intro sz hsz
    simp [resolve_size, hsz]
  · intro h
    rcases hsz : b.size with _ | sz <;> simp [resolve_size, hsz, h]
  · intro hsz h
    refine ⟨by simp [resolve_size, hsz, h], Nat.sub_le _ _⟩
  · intro hsz h
    simp [resolve_size, hsz]
    omega

/-- C4: whenever `configure` runs with an existing swapchain (resize), the
emitted trace begins with the device-idle wait, followed by the release of
every old backbuffer resource, followed by the native `ResizeBuffers` call:
idle-wait precedes every release, and every release precedes the resize. -/
theorem configure_resize_event_order (s : Surface) (o : NativeOracle)
    (config : SurfaceConfiguration) (sc : SwapChain) (h : s.swap_chain = some sc) :
    ∃ rest,
      (s.configure o config).1 =
        Event.waitIdle :: (sc.resources.map Event.releaseResource ++
          Event.resizeBuffers config.swap_chain_size config.extent_width
              config.extent_height (swapChainFlags config.present_mode) :: rest) := by
  rcases he : into_result o.resizeHr with m | u <;>
    simp [Surface.configure, h, he, SwapChain.release_resources, finishConfigure]

theorem configure_resize_event_order_witness :
    surfWith.swap_chain = some scEx ∧
    ∃ rest,
      (surfWith.configure oracleResizeFail cfgEx).1 =
        Event.waitIdle :: (scEx.resources.map Event.releaseResource ++
          Event.resizeBuffers cfgEx.swap_chain_size cfgEx.extent_width
              cfgEx.extent_height (swapChainFlags cfgEx.present_mode) :: rest) :=
  ⟨rfl, configure_resize_event_order surfWith oracleResizeFail cfgEx scEx rfl⟩

/-- C5: every failure of `configure` carries `SurfaceError::Other` with one
of the stage-naming strings "window is in use", "swap chain creation" or
"swap chain cast to 3", and after any failure the surface holds no
swapchain (the prior swapchain was taken and is lost). -/
theorem configure_failure_paths (s : Surface) (o : NativeOracle)
    (config : SurfaceConfiguration) (e : SurfaceError)
    (h : (s.configure o config).2.2 = Except.error e) :
    (e = SurfaceError.other "window is in use" ∨
      e = SurfaceError.other "swap chain creation" ∨
      e = SurfaceError.other "swap chain cast to 3") ∧
    (s.configure o config).2.1.swap_chain = none := by
  rcases hsc : s.swap_chain with _ | sc
  · rcases h1 : into_result o.createHr with m | u
    · simp_all [Surface.configure, finishConfigure]
    · rcases h2 : into_result o.castHr with m | u <;>
        simp_all [Surface.configure, finishConfigure]
  · rcases h1 : into_result o.resizeHr with m | u <;>
      simp_all [Surface.configure, finishConfigure]

theorem configure_failure_paths_witness :
    (surfWith.configure oracleResizeFail cfgEx).2.2 =
      Except.error (SurfaceError.other "window is in use") ∧
    ((SurfaceError.other "window is in use" = SurfaceError.other "window is in use" ∨
        SurfaceError.other "window is in use" = SurfaceError.other "swap chain creation" ∨
        SurfaceError.other "window is in use" = SurfaceError.other "swap chain cast to 3") ∧
      (surfWith.configure oracleResizeFail cfgEx).2.1.swap_chain = none) :=
  ⟨rfl,
    configure_failure_paths surfWith oracleResizeFail cfgEx
      (SurfaceError.other "window is in use") rfl⟩

/-- C6: when `configure` succeeds, the surface holds a swapchain whose
resource list was retrieved one entry per backbuffer index (so it has
exactly `config.swap_chain_size` entries), whose wait handle is the
frame-latency waitable object of the swapchain, and whose `acquired_count`
is 0. -/
theorem configure_success_state (s : Surface) (o : NativeOracle)
    (config : SurfaceConfiguration)
    (h : (s.configure o config).2.2 = Except.ok ()) :
    ∃ sc,
      (s.configure o config).2.1.swap_chain = some sc ∧
      sc.resources = (List.range config.swap_chain_size).map o.bufferFor ∧
      sc.resources.length = config.swap_chain_size ∧
      sc.waitable = o.waitable ∧
      sc.acquired_count = 0 := by
  rcases hsc : s.swap_chain with _ | sc
  · rcases h1 : into_result o.createHr with m | u
    · simp_all [Surface.configure, finishConfigure]
    · rcases h2 : into_result o.castHr with m | u <;>
        simp_all [Surface.configure, finishConfigure]
  · rcases h1 : into_result o.resizeHr with m | u <;>
      simp_all [Surface.configure, finishConfigure]

theorem configure_success_state_witness :
    (surfNone.configure oracleOk cfgEx).2.2 = Except.ok () ∧
    ∃ sc,
      (surfNone.configure oracleOk cfgEx).2.1.swap_chain = some sc ∧
      sc.resources = (List.range cfgEx.swap_chain_size).map oracleOk.bufferFor ∧
      sc.resources.length = cfgEx.swap_chain_size ∧
      sc.waitable = oracleOk.waitable ∧
      sc.acquired_count = 0 :=
  ⟨rfl, configure_success_state surfNone oracleOk cfgEx rfl⟩

/-- C8: with a configured swapchain, `unconfigure` performs, in order, an
`INFINITE` wait on the frame-latency wait handle of the swapchain, a device-idle
wait, the release of every backbuffer resource, and the destruction of the
native swapchain, leaving `swap_chain = none`; with no swapchain configured
it changes nothing. -/
theorem unconfigure_behavior (s : Surface) :
    (∀ sc, s.swap_chain = some sc →
      s.unconfigure =
        (Event.waitOnWaitable sc.waitable INFINITE :: Event.waitIdle ::
            (sc.resources.map Event.releaseResource ++
              [Event.destroySwapChain sc.raw]),
          { s with swap_chain := none })) ∧
    (s.swap_chain = none → s.unconfigure = ([], s)) := by
  constructor
  · intro sc h
    simp [Surface.unconfigure, h, SwapChain.release_resources]
  · intro h
    simp [Surface.unconfigure, h]

theorem unconfigure_behavior_witness :
    surfWith.swap_chain = some scEx ∧
    surfWith.unconfigure =
      (Event.waitOnWaitable scEx.waitable INFINITE :: Event.waitIdle ::
          (scEx.resources.map Event.releaseResource ++
            [Event.destroySwapChain scEx.raw]),
        { surfWith with swap_chain := none }) :=
  ⟨rfl, (unconfigure_behavior surfWith).1 scEx rfl⟩

/-- C9: the `acquire_texture` of the source is the stub `Ok(None)`: after a
successful two-buffer `configure` (800x600, Fifo), the very first
`acquire_texture(16)` already returns `Ok(None)` — no texture — and indeed
every call returns `Ok(None)` unconditionally, contradicting the claimed
first-acquire-yields-a-texture behavior. -/
theorem acquire_texture_stub_scenario :
    (surfNone.configure oracleOk cfgEx).2.2 = Except.ok () ∧
    (surfNone.configure oracleOk cfgEx).2.1.acquire_texture 16 = Except.ok none ∧
    (∀ s t, Surface.acquire_texture s t =
      (Except.ok none : Except SurfaceError (Option AcquiredSurfaceTexture))) :=
  ⟨rfl, rfl, fun _ _ => rfl⟩

theorem resolve_size_amended_witness :
    (bindingNone.size = none ∧ bindingNone.offset ≤ bindingNone.buffer.size) ∧
    (resolve_size bindingNone = some (bindingNone.buffer.size - bindingNone.offset) ∧
      bindingNone.buffer.size - bindingNone.offset ≤ bindingNone.buffer.size) :=
  ⟨⟨rfl, by decide⟩, (resolve_size_amended bindingNone).2.2.1 rfl (by decide)⟩
